import Mathlib

/-!
Verification of the ed25519 precompile (src/addresses.rs, src/ed25519.rs).

The Rust code is shallowly embedded: bytes are naturals, byte strings are
lists, a computation that may panic returns a `RustResult`, and the fallible
constructors of the external `ed25519` / `ed25519-dalek` crates are modelled
as `Option`-returning functions.  The `todo!` macro at the end of
`verify_impl` is modelled as a panic outcome.
-/

namespace Ed25519Precompile

/-- A byte, as an unsigned value. -/
abbrev Byte := Nat

/-- Reasons the embedded code can panic: `Option::unwrap` on `None`, or the
`todo!("accept unbounded input, meter with prehashed")` placeholder at the
end of `verify_impl`. -/
inductive PanicReason where
  | unwrapNone
  | todoUnboundedInput
  deriving DecidableEq

/-- Outcome of running a piece of Rust code: a normal return value, or a
panic. -/
inductive RustResult (α : Type) where
  | ok : α → RustResult α
  | panicked : PanicReason → RustResult α
  deriving DecidableEq

/-- Sequencing of possibly-panicking computations: a panic propagates. -/
def RustResult.bind {α β : Type} : RustResult α → (α → RustResult β) → RustResult β
  | .ok a, f => f a
  | .panicked r, _ => .panicked r

/-- `Option::unwrap`: panics on `None`. -/
def unwrapOption {α : Type} : Option α → RustResult α
  | some a => .ok a
  | none => .panicked .unwrapNone

/-- `TryInto` from a slice to a fixed-size array of length `n`: succeeds
exactly when the slice has length `n` (`input[..64].try_into()` etc.). -/
def sliceToArray (n : Nat) (bs : List Byte) : Option (List Byte) :=
  if bs.length = n then some bs else none

/-- Error type of the precompile (`PrecompileError::OutOfGas` is the only
variant this code constructs). -/
inductive PrecompileError where
  | outOfGas
  deriving DecidableEq

/-- `PrecompileOutput`: gas consumed plus the result bytes. -/
structure PrecompileOutput where
  gasUsed : Nat
  bytes : List Byte
  deriving DecidableEq

instance : DecidableEq (Except PrecompileError PrecompileOutput) := fun a b =>
  match a, b with
  | .error x, .error y =>
      if h : x = y then .isTrue (by rw [h])
      else .isFalse (fun hc => h (by injection hc))
  | .error _, .ok _ => .isFalse (fun hc => by injection hc)
  | .ok _, .error _ => .isFalse (fun hc => by injection hc)
  | .ok x, .ok y =>
      if h : x = y then .isTrue (by rw [h])
      else .isFalse (fun hc => h (by injection hc))

/-- `B256::with_last_byte(b).into()`: 32 bytes, all zero except the last. -/
def withLastByte (b : Byte) : List Byte := List.replicate 31 0 ++ [b]

/-! ### src/addresses.rs -/

/-- `P256VERIFY_ADDRESS` from src/addresses.rs. -/
def P256VERIFY_ADDRESS : Nat := 0x14

/-- `ED25519VERIFY_ADDRESS` from src/addresses.rs. -/
def ED25519VERIFY_ADDRESS : Nat := 0x15

/-- revm's `u64_to_address`: a 20-byte address whose last 8 bytes are the
big-endian encoding of the given `u64`. -/
def u64_to_address (x : Nat) : List Byte :=
  List.replicate 12 0 ++
    [x / 2 ^ 56 % 256, x / 2 ^ 48 % 256, x / 2 ^ 40 % 256, x / 2 ^ 32 % 256,
     x / 2 ^ 24 % 256, x / 2 ^ 16 % 256, x / 2 ^ 8 % 256, x % 256]

/-! ### External crate models: ed25519 / ed25519-dalek -/

/-- An ed25519 signature: the 64 raw bytes (two 32-byte scalars). -/
structure Signature where
  bytes : List Byte
  deriving DecidableEq

/-- Modelled from the spec: the external crate constructor
`ed25519::Signature::from_slice`, which per the spec "can only fail if the
byte count is wrong" — it succeeds exactly on 64-byte slices, with no
content validation. -/
def Signature.from_slice (bs : List Byte) : Option Signature :=
  if bs.length = 64 then some ⟨bs⟩ else none

/-- The field prime of Curve25519, `2^255 - 19`. -/
def p25519 : Nat := 2 ^ 255 - 19

/-- The Edwards curve constant `d = -121665/121666 mod p`. -/
def edwardsD : Nat :=
  37095705934669439343138083508754565189542113879843219016388785533085940283555

/-- Modular exponentiation by repeated squaring, structurally recursive on a
fuel bound so that the kernel can evaluate it on concrete inputs. -/
def powModAux (m : Nat) : Nat → Nat → Nat → Nat
  | 0, _, _ => 1 % m
  | fuel + 1, b, n =>
    if n = 0 then 1 % m
    else
      let r := powModAux m fuel (b * b % m) (n / 2)
      if n % 2 = 1 then r * b % m else r

/-- `b ^ n mod m` (300 squaring steps cover every exponent below `2^300`). -/
def powMod (m b n : Nat) : Nat := powModAux m 300 b n

/-- The `was_square` flag of curve25519-dalek's `FieldElement::sqrt_ratio_i`:
with `r = u * v^3 * (u * v^7)^((p-5)/8)`, the ratio `u/v` is a square iff
`v * r^2 = ±u` in the field. -/
def sqrtWasSquare (u v : Nat) : Bool :=
  let P := p25519
  let v3 := v * v % P * v % P
  let v7 := v3 * v3 % P * v % P
  let r := u * v3 % P * powMod P (u * v7 % P) ((P - 5) / 8) % P
  let check := v * (r * r % P) % P
  check = u % P || check = (P - u % P) % P

/-- Little-endian value of a byte string. -/
def leVal : List Byte → Nat
  | [] => 0
  | b :: rest => b + 256 * leVal rest

/-- Modelled from the spec: point decompression, as performed by
curve25519-dalek's `CompressedEdwardsY::decompress` — mask the sign bit,
read `y` little-endian, and succeed iff `(y^2 - 1)/(d*y^2 + 1)` is a square
in the field (the spec: the key bytes "do not decode to a valid point on the
curve (e.g., fails a point-decompression ... check)"). -/
def decompressSuccess (pk : List Byte) : Bool :=
  let y := leVal pk % 2 ^ 255 % p25519
  let yy := y * y % p25519
  let u := (yy + p25519 - 1) % p25519
  let v := (yy * edwardsD + 1) % p25519
  sqrtWasSquare u v

/-- An ed25519 verifying key: the 32 compressed-point bytes. -/
structure VerifyingKey where
  bytes : List Byte
  deriving DecidableEq

/-- Modelled from the spec: the external crate constructor
`ed25519_dalek::VerifyingKey::from_bytes`, which fails exactly when the
32 bytes do not decompress to a curve point. -/
def VerifyingKey.from_bytes (pk : List Byte) : Option VerifyingKey :=
  if decompressSuccess pk then some ⟨pk⟩ else none

/-! ### src/ed25519.rs -/

/-- `ED25519VERIFY_BASE`: base gas fee for the ed25519verify operation. -/
def ED25519VERIFY_BASE : Nat := 3450

/-- `verify_impl` from src/ed25519.rs: length check, fixed-offset slicing
with `try_into().unwrap()`, signature construction with `unwrap`, public key
decoding with `.ok()?`, then the `todo!` placeholder. -/
def verify_impl (input : List Byte) : RustResult (Option Unit) :=
  if input.length < 160 then .ok none
  else
    (unwrapOption (sliceToArray 64 (input.take 64))).bind fun _msg =>
    (unwrapOption (sliceToArray 64 ((input.drop 64).take 64))).bind fun sig =>
    (unwrapOption (sliceToArray 32 ((input.drop 128).take 32))).bind fun pk =>
    (unwrapOption (Signature.from_slice sig)).bind fun _signature =>
    match VerifyingKey.from_bytes pk with
    | none => .ok none
    | some _public_key => .panicked .todoUnboundedInput

/-- `ed25519_verify` from src/ed25519.rs: gas check first, then
`verify_impl`, then the 32-byte boolean output encoding. -/
def ed25519_verify (input : List Byte) (gas_limit : Nat) :
    RustResult (Except PrecompileError PrecompileOutput) :=
  if ED25519VERIFY_BASE > gas_limit then .ok (.error .outOfGas)
  else
    (verify_impl input).bind fun result =>
      .ok (.ok ⟨ED25519VERIFY_BASE, withLastByte (if result.isSome then 1 else 0)⟩)

/-- A registered precompile: an address and its operation. -/
structure PrecompileWithAddress where
  address : List Byte
  precompile : List Byte → Nat →
    RustResult (Except PrecompileError PrecompileOutput)

/-- `ED25519VERIFY`: the ed25519 precompile with its address. -/
def ED25519VERIFY : PrecompileWithAddress :=
  ⟨u64_to_address ED25519VERIFY_ADDRESS, ed25519_verify⟩

/-- `precompiles()`: the iterator over the registered pairs. -/
def precompiles : List PrecompileWithAddress := [ED25519VERIFY]

/-- A concrete 160-byte input holding a genuine valid triple: the digest is
64 bytes of `0xAB`, the signature was produced over that digest by the
RFC 8032 signing algorithm with the secret key `000102...1f`, and the public
key is the matching verifying key. -/
def validTripleInput : List Byte :=
  List.replicate 64 171 ++
  [ 214, 248, 89, 122, 83, 78, 36, 72, 137, 5, 63, 26, 82, 126, 25, 177, 71,
   97, 117, 33, 141, 6, 41, 113, 123, 170, 137, 100, 227, 199, 14, 216, 248,
   229, 169, 213, 48, 223, 59, 231, 4, 35, 140, 93, 202, 239, 33, 38, 233,
   181, 108, 251, 141, 143, 120, 60, 210, 219, 169, 112, 198, 126, 152, 1, 3,
   161, 7, 191, 243, 206, 16, 190, 29, 112, 221, 24, 231, 75, 192, 153, 103,
   228, 214, 48, 155, 165, 13, 95, 29, 220, 134, 100, 18, 85, 49, 184]

/-! ### Helper lemmas -/

/-- On inputs of length at least 160, all the slicing and the signature
construction in `verify_impl` succeed, and the result is decided by the
public key decode of bytes 128..160. -/
theorem verify_impl_of_long (input : List Byte) (h : 160 ≤ input.length) :
    verify_impl input =
      match VerifyingKey.from_bytes ((input.drop 128).take 32) with
      | none => .ok none
      | some _ => .panicked .todoUnboundedInput := by
  have h1 : (input.take 64).length = 64 := by simp; omega
  have h2 : ((input.drop 64).take 64).length = 64 := by simp; omega
  have h3 : ((input.drop 128).take 32).length = 32 := by simp; omega
  unfold verify_impl
  rw [if_neg (by omega)]
  simp [sliceToArray, h1, h2, h3, unwrapOption, RustResult.bind,
    Signature.from_slice]

/-- Whenever `ed25519_verify` returns a successful output, the output is the
base cost together with the boolean encoding of the `verify_impl` result. -/
theorem ed25519_verify_ok_elim (input : List Byte) (gas_limit : Nat)
    (out : PrecompileOutput)
    (h : ed25519_verify input gas_limit = .ok (.ok out)) :
    ∃ r, verify_impl input = .ok r ∧
      out = ⟨ED25519VERIFY_BASE, withLastByte (if r.isSome then 1 else 0)⟩ := by
  unfold ed25519_verify at h
  split at h
  · exact absurd h (by simp)
  · cases hv : verify_impl input with
    | ok r =>
      rw [hv] at h
      simp only [RustResult.bind, RustResult.ok.injEq, Except.ok.injEq] at h
      exact ⟨r, rfl, h.symm⟩
    | panicked r =>
      rw [hv] at h
      exact absurd h (by simp [RustResult.bind])

/-- A 160-byte input whose public-key field (bytes 128..160) is
`02 00 ... 00`, which does not decompress to a curve point. -/
def invalidPkInput : List Byte :=
  List.replicate 128 0 ++ 2 :: List.replicate 31 0

/-- The shape of any successful output: the gas used is the base cost and
the 32 output bytes are all zero but for a final boolean byte that is `1`
exactly when `verify_impl` reported a valid signature. -/
def outputShapeOk (input : List Byte) (out : PrecompileOutput) : Prop :=
  ∃ r, verify_impl input = .ok r ∧
    out.gasUsed = ED25519VERIFY_BASE ∧
    out.bytes = withLastByte (if r.isSome then 1 else 0) ∧
    out.bytes.length = 32 ∧
    out.bytes.take 31 = List.replicate 31 0 ∧
    (out.bytes.getLast? = some 0 ∨ out.bytes.getLast? = some 1)

/-! ### Claims -/

set_option maxRecDepth 100000

/-- C1: the claim states that `ed25519_verify` always terminates without
panicking, in particular on every input of length at least 160.  The code
refutes this: on the 160-byte all-zero input (whose all-zero public-key
field decompresses to a curve point) with sufficient gas, execution reaches
the `todo!` placeholder and panics. -/
theorem claim_C1_panics_on_160_zero_bytes :
    ed25519_verify (List.replicate 160 0) ED25519VERIFY_BASE =
      .panicked .todoUnboundedInput := by decide

/-- C2: `ed25519_verify` yields the `OutOfGas` error exactly when
`gas_limit < ED25519VERIFY_BASE = 3450`, for every input whatsoever — the
gas check precedes all parsing, so the bound does not depend on the input
bytes. -/
theorem claim_C2_outOfGas_iff (input : List Byte) (gas_limit : Nat) :
    ed25519_verify input gas_limit = .ok (.error .outOfGas) ↔
      gas_limit < ED25519VERIFY_BASE := by
  unfold ed25519_verify
  by_cases hg : ED25519VERIFY_BASE > gas_limit
  · rw [if_pos hg]
    exact ⟨fun _ => hg, fun _ => rfl⟩
  · rw [if_neg hg]
    constructor
    · intro h
      cases hv : verify_impl input with
      | ok r => rw [hv] at h; exact absurd h (by simp [RustResult.bind])
      | panicked r => rw [hv] at h; exact absurd h (by simp [RustResult.bind])
    · exact fun h => absurd h hg

/-- C3: on every input shorter than 160 bytes, with gas at least the base
cost, `ed25519_verify` succeeds with gas used 3450 and 32 zero output
bytes. -/
theorem claim_C3_short_input (input : List Byte) (gas_limit : Nat)
    (hlen : input.length < 160) (hgas : ED25519VERIFY_BASE ≤ gas_limit) :
    ed25519_verify input gas_limit =
      .ok (.ok ⟨ED25519VERIFY_BASE, List.replicate 32 0⟩) := by
  unfold ed25519_verify
  rw [if_neg (by omega)]
  unfold verify_impl
  rw [if_pos hlen]
  decide

theorem claim_C3_short_input_witness :
    ed25519_verify (List.replicate 159 7) 3450 =
      .ok (.ok ⟨ED25519VERIFY_BASE, List.replicate 32 0⟩) :=
  claim_C3_short_input (List.replicate 159 7) 3450 (by decide) (by decide)

/-- C4: on every input of length at least 160 whose public-key field
(bytes 128..160) does not decode to a curve point, with gas at least the
base cost, `ed25519_verify` succeeds (no error propagated) with gas used
3450 and a final output byte of 0. -/
theorem claim_C4_invalid_pubkey (input : List Byte) (gas_limit : Nat)
    (hlen : 160 ≤ input.length)
    (hpk : VerifyingKey.from_bytes ((input.drop 128).take 32) = none)
    (hgas : ED25519VERIFY_BASE ≤ gas_limit) :
    ∃ out, ed25519_verify input gas_limit = .ok (.ok out) ∧
      out.gasUsed = ED25519VERIFY_BASE ∧ out.bytes.getLast? = some 0 := by
  refine ⟨⟨ED25519VERIFY_BASE, withLastByte 0⟩, ?_, rfl, by decide⟩
  unfold ed25519_verify
  rw [if_neg (by omega)]
  rw [verify_impl_of_long input hlen, hpk]
  decide

theorem claim_C4_invalid_pubkey_witness :
    ∃ out, ed25519_verify invalidPkInput 3450 = .ok (.ok out) ∧
      out.gasUsed = ED25519VERIFY_BASE ∧ out.bytes.getLast? = some 0 :=
  claim_C4_invalid_pubkey invalidPkInput 3450 (by decide) (by decide)
    (by decide)

/-- C5: the claim states that on a valid (digest, signature, public key)
triple `ed25519_verify` succeeds with a final output byte of 1.  The code
refutes this: on the concrete valid triple `validTripleInput` (with exactly
the base gas) it reaches the `todo!` placeholder and panics instead of
verifying. -/
theorem claim_C5_panics_on_valid_triple :
    ed25519_verify validTripleInput ED25519VERIFY_BASE =
      .panicked .todoUnboundedInput := by decide

/-- C6: every successful result of `ed25519_verify` consumes the base cost
and outputs exactly 32 bytes, all zero except the final byte, which is in
the set of 0 and 1 and is 1 exactly when verification succeeded. -/
theorem claim_C6_output_shape (input : List Byte) (gas_limit : Nat)
    (out : PrecompileOutput)
    (h : ed25519_verify input gas_limit = .ok (.ok out)) :
    outputShapeOk input out := by
  obtain ⟨r, hv, hout⟩ := ed25519_verify_ok_elim input gas_limit out h
  subst hout
  cases r with
  | none => exact ⟨none, hv, rfl, rfl, by decide, by decide, by decide⟩
  | some u =>
    cases u
    exact ⟨some (), hv, rfl, rfl, by decide, by decide, by decide⟩

theorem claim_C6_output_shape_witness :
    outputShapeOk [] ⟨ED25519VERIFY_BASE, withLastByte 0⟩ :=
  claim_C6_output_shape [] ED25519VERIFY_BASE
    ⟨ED25519VERIFY_BASE, withLastByte 0⟩ (by decide)

/-- C7: appending trailing bytes beyond offset 160 never changes the
outcome of `ed25519_verify`, and every successful outcome consumes exactly
the base cost. -/
theorem claim_C7_trailing_bytes (input extra : List Byte) (gas_limit : Nat)
    (h : 160 ≤ input.length) :
    ed25519_verify (input ++ extra) gas_limit =
        ed25519_verify input gas_limit ∧
      ∀ out, ed25519_verify input gas_limit = .ok (.ok out) →
        out.gasUsed = ED25519VERIFY_BASE := by
  have hwin : ((input ++ extra).drop 128).take 32 = (input.drop 128).take 32 := by
    rw [List.drop_append_of_le_length (by omega)]
    exact List.take_append_of_le_length (by simp; omega)
  have hvi : verify_impl (input ++ extra) = verify_impl input := by
    rw [verify_impl_of_long input h,
      verify_impl_of_long (input ++ extra) (by simp; omega), hwin]
  constructor
  · unfold ed25519_verify
    rw [hvi]
  · intro out hout
    obtain ⟨r, _, hout2⟩ := ed25519_verify_ok_elim input gas_limit out hout
    rw [hout2]

theorem claim_C7_trailing_bytes_witness :
    ed25519_verify (List.replicate 160 0 ++ [1, 2, 3]) 3450 =
      ed25519_verify (List.replicate 160 0) 3450 :=
  (claim_C7_trailing_bytes (List.replicate 160 0) [1, 2, 3] 3450
    (by decide)).1

/-- C8: `ed25519_verify` is deterministic — two calls with identical input
bytes and identical gas limit yield identical results. -/
theorem claim_C8_deterministic (input1 input2 : List Byte) (g1 g2 : Nat)
    (hi : input1 = input2) (hg : g1 = g2) :
    ed25519_verify input1 g1 = ed25519_verify input2 g2 := by
  rw [hi, hg]

theorem claim_C8_deterministic_witness :
    ed25519_verify [] 0 = ed25519_verify [] 0 :=
  claim_C8_deterministic [] [] 0 0 rfl rfl

/-- C9: on every input of length at least 160, the 64-byte signature window
at offsets 64..128 always satisfies `Signature.from_slice`, so the `unwrap`
on it cannot panic. -/
theorem claim_C9_signature_from_slice (input : List Byte)
    (h : 160 ≤ input.length) :
    Signature.from_slice ((input.drop 64).take 64) =
        some ⟨(input.drop 64).take 64⟩ ∧
      unwrapOption (Signature.from_slice ((input.drop 64).take 64)) =
        .ok ⟨(input.drop 64).take 64⟩ := by
  have hl : ((input.drop 64).take 64).length = 64 := by simp; omega
  unfold Signature.from_slice
  rw [if_pos hl]
  exact ⟨rfl, rfl⟩

theorem claim_C9_signature_from_slice_witness :
    Signature.from_slice (((List.replicate 160 5).drop 64).take 64) =
        some ⟨((List.replicate 160 5).drop 64).take 64⟩ ∧
      unwrapOption
          (Signature.from_slice (((List.replicate 160 5).drop 64).take 64)) =
        .ok ⟨((List.replicate 160 5).drop 64).take 64⟩ :=
  claim_C9_signature_from_slice (List.replicate 160 5) (by decide)

/-- C10: the registry yields exactly one pair — the ed25519 precompile at
address `0x15 = 21` running `ed25519_verify` — and that address differs
from the P256 verify address `0x14 = 20`. -/
theorem claim_C10_registry :
    precompiles = [ED25519VERIFY] ∧
      precompiles.length = 1 ∧
      ED25519VERIFY.address = u64_to_address 21 ∧
      ED25519VERIFY.precompile = ed25519_verify ∧
      ED25519VERIFY_ADDRESS = 21 ∧
      P256VERIFY_ADDRESS = 20 ∧
      ED25519VERIFY_ADDRESS ≠ P256VERIFY_ADDRESS ∧
      u64_to_address ED25519VERIFY_ADDRESS ≠
        u64_to_address P256VERIFY_ADDRESS :=
  ⟨rfl, rfl, rfl, rfl, rfl, rfl, by decide, by decide⟩

end Ed25519Precompile
